import Mathlib

/-!
Shallow embedding of the pySLAMMER verification comparison engine
(`verification_files/verification_scripts/comparisons.py`), together with
theorems settling the specification claims about it.

Numeric values are modelled as rationals; Python floats that can become
positive infinity (relative error, percent difference, the relative
tolerance) are modelled by `PyFloat`, a rational together with a +∞ point,
ordered exactly as Python orders floats involving `float("inf")`.
-/

namespace PySlammer

/-- A Python float value that is either a finite number or positive
infinity (`float("inf")`).  NaN never arises on the paths modelled with
this type. -/
inductive PyFloat where
  | fin (q : ℚ)
  | inf
deriving DecidableEq

/-- Python `<=` on `PyFloat` values: any finite value is `<=` infinity,
infinity is `<=` only infinity. -/
def PyFloat.le : PyFloat → PyFloat → Bool
  | .fin a, .fin b => decide (a ≤ b)
  | .fin _, .inf => true
  | .inf, .fin _ => false
  | .inf, .inf => true

/-- Python `math.isinf` on a `PyFloat`. -/
def PyFloat.isinf : PyFloat → Bool
  | .fin _ => false
  | .inf => true

/-- The value configured under `tolerances.value_dependent.small_displacement_relative`:
either the literal TOML string `"inf"` (the sentinel `get_tolerance` turns into
`float("inf")`) or a number. -/
inductive SmallRelCfg where
  | infStr
  | num (q : ℚ)
deriving DecidableEq

/-- The `[tolerances.method_specific.<method>]` table: both keys are read with
`dict.get`, so each may be absent. -/
structure MethodTol where
  relative : Option ℚ := none
  absolute : Option ℚ := none
deriving DecidableEq

/-- The `[tolerances.value_dependent]` table; every key is read with `dict.get`. -/
structure ValueDependent where
  small_displacement_threshold : Option ℚ := none
  small_displacement_relative : Option SmallRelCfg := none
  small_displacement_absolute : Option ℚ := none
deriving DecidableEq

/-- The `[tolerances]` table of the verification config.  `default_relative`
and `default_absolute` are accessed with bracket indexing in `get_tolerance`
(raising `KeyError` when absent), every other key with `dict.get` and a
default. -/
structure TolerancesTable where
  default_relative : Option ℚ := none
  default_absolute : Option ℚ := none
  method_specific : List (String × MethodTol) := []
  value_dependent : Option ValueDependent := none
  percent_passing_individual_tests : Option ℚ := none
  lin_regression_slope_min : Option ℚ := none
  lin_regression_slope_max : Option ℚ := none
  lin_regression_intercept_min : Option ℚ := none
  lin_regression_intercept_max : Option ℚ := none
  lin_regression_r_squared_min : Option ℚ := none
deriving DecidableEq

/-- The loaded TOML configuration, restricted to the keys the comparison
engine reads. -/
structure Config where
  tolerances : Option TolerancesTable := none
deriving DecidableEq

/-- `config.get("tolerances", \x7b\x7d)`. -/
def Config.tolerancesD (cfg : Config) : TolerancesTable :=
  cfg.tolerances.getD {}

/-- `config.get("tolerances", \x7b\x7d).get("value_dependent", \x7b\x7d)`. -/
def Config.valueDependentD (cfg : Config) : ValueDependent :=
  cfg.tolerancesD.value_dependent.getD {}

/-- The small-displacement threshold lookup
`...get("value_dependent", \x7b\x7d).get("small_displacement_threshold", 0.5)`
shared by `get_tolerance` and `compare_individual_test`. -/
def smallDisplacementThreshold (cfg : Config) : ℚ :=
  cfg.valueDependentD.small_displacement_threshold.getD (1 / 2)

/-- `group_tolerances.get("percent_passing_individual_tests", 95.0)`. -/
def percentPassingThreshold (cfg : Config) : ℚ :=
  cfg.tolerancesD.percent_passing_individual_tests.getD 95

/-- `group_tolerances.get("lin_regression_slope_min", 0.99)`. -/
def slopeMinThreshold (cfg : Config) : ℚ :=
  cfg.tolerancesD.lin_regression_slope_min.getD (99 / 100)

/-- `group_tolerances.get("lin_regression_slope_max", 1.01)`. -/
def slopeMaxThreshold (cfg : Config) : ℚ :=
  cfg.tolerancesD.lin_regression_slope_max.getD (101 / 100)

/-- `group_tolerances.get("lin_regression_intercept_min", -0.1)`. -/
def interceptMinThreshold (cfg : Config) : ℚ :=
  cfg.tolerancesD.lin_regression_intercept_min.getD (-(1 / 10))

/-- `group_tolerances.get("lin_regression_intercept_max", 0.1)`. -/
def interceptMaxThreshold (cfg : Config) : ℚ :=
  cfg.tolerancesD.lin_regression_intercept_max.getD (1 / 10)

/-- `group_tolerances.get("lin_regression_r_squared_min", 0.99)`. -/
def rSquaredMinThreshold (cfg : Config) : ℚ :=
  cfg.tolerancesD.lin_regression_r_squared_min.getD (99 / 100)

/-- `ToleranceSettings` dataclass: the relative tolerance can be set to
`float("inf")` by the small-displacement override, the absolute tolerance is
always a finite configuration number. -/
structure ToleranceSettings where
  relative : PyFloat
  absolute : ℚ
deriving DecidableEq

/-- `ConfigManager.get_tolerance`.  Mirrors the Python: the
method-specific table and all `value_dependent` keys are read defensively
with `dict.get`, but `config["tolerances"]["default_relative"]` and
`config["tolerances"]["default_absolute"]` are bracket lookups evaluated
unconditionally (they are the eagerly-evaluated default arguments of the
`method_tolerances.get` calls), so a missing `tolerances` table or missing
default key is a `KeyError`, modelled as `Except.error`. -/
def get_tolerance (cfg : Config) (method : String) (displacement_value : Option ℚ) :
    Except String ToleranceSettings :=
  let method_tolerances : MethodTol := (cfg.tolerancesD.method_specific.lookup method).getD {}
  match cfg.tolerances with
  | none => .error "KeyError: tolerances"
  | some t =>
    match t.default_relative, t.default_absolute with
    | none, _ => .error "KeyError: default_relative"
    | some _, none => .error "KeyError: default_absolute"
    | some dr, some da =>
      let relative : PyFloat := .fin (method_tolerances.relative.getD dr)
      let absolute : ℚ := method_tolerances.absolute.getD da
      match displacement_value with
      | none => .ok ⟨relative, absolute⟩
      | some dv =>
        if dv ≤ smallDisplacementThreshold cfg then
          let small_rel := cfg.valueDependentD.small_displacement_relative
          let relative2 : PyFloat := match small_rel with
            | some .infStr => .inf
            | some (.num q) => .fin q
            | none => relative
          let absolute2 : ℚ := cfg.valueDependentD.small_displacement_absolute.getD absolute
          .ok ⟨relative2, absolute2⟩
        else
          .ok ⟨relative, absolute⟩

/-- `IndividualComparisonResult` dataclass. -/
structure IndividualComparisonResult where
  test_id : String
  method : String
  direction : String
  absolute_error : ℚ
  relative_error : PyFloat
  percent_difference : PyFloat
  passes_tolerance : Bool
  tolerance_used : ToleranceSettings
  legacy_value : ℚ
  pyslammer_value : ℚ
  units : String := "cm"
deriving DecidableEq

/-- `ComparisonEngine.compare_individual_test`.  The only failure path is the
`KeyError` escaping `get_tolerance`. -/
def compare_individual_test (cfg : Config) (test_id method direction : String)
    (legacy_value pyslammer_value : ℚ) : Except String IndividualComparisonResult :=
  let absolute_error := |pyslammer_value - legacy_value|
  let relative_error : PyFloat :=
    if legacy_value ≠ 0 then .fin (absolute_error / |legacy_value|)
    else if absolute_error > 0 then .inf else .fin 0
  let percent_difference : PyFloat :=
    if legacy_value ≠ 0 then .fin ((pyslammer_value - legacy_value) / legacy_value * 100)
    else if pyslammer_value ≠ 0 then .inf else .fin 0
  match get_tolerance cfg method (some legacy_value) with
  | .error e => .error e
  | .ok tolerance =>
    let passes_absolute : Bool := decide (absolute_error ≤ tolerance.absolute)
    let passes_relative : Bool := relative_error.le tolerance.relative
    let passes_tolerance : Bool :=
      if legacy_value ≤ smallDisplacementThreshold cfg then passes_absolute
      else passes_absolute && passes_relative
    .ok ⟨test_id, method, direction, absolute_error, relative_error, percent_difference,
      passes_tolerance, tolerance, legacy_value, pyslammer_value, "cm"⟩

/-- `GroupComparisonResult` dataclass.  `lin_regression_slope` and
`lin_regression_intercept` are `Option ℚ` because `stats.linregress` yields
float NaN for them on a single-sample input (`none` models NaN).
`std_relative_error` carries the population variance, i.e. the square of the
value `np.std` returns; the square root of a rational is irrational, and every
claim about this field concerns only which values enter the statistic and
whether it is zero, both invariant under the square root. -/
structure GroupComparisonResult where
  method : String
  direction : String
  number_of_samples : ℕ
  percent_passing_individual_tests : ℚ
  lin_regression_slope : Option ℚ
  lin_regression_intercept : Option ℚ
  lin_regression_r_squared : ℚ
  passes_tolerance : Bool
  mean_relative_error : ℚ
  std_relative_error : ℚ
  max_absolute_error : ℚ
deriving DecidableEq

/-- `np.mean` on a non-empty list (never applied to `[]` below without a
guard). -/
def npMean (l : List ℚ) : ℚ := l.sum / (l.length : ℚ)

/-- `np.mean`, returning `none` for float NaN on the empty list. -/
def npMeanOpt (l : List ℚ) : Option ℚ :=
  if l.isEmpty then none else some (npMean l)

/-- The square of `np.std` (population variance, `ddof = 0`); see the note on
`GroupComparisonResult.std_relative_error`. -/
def npVariance (l : List ℚ) : ℚ :=
  ((l.map fun v => (v - npMean l) ^ 2).sum) / (l.length : ℚ)

/-- `np.amax` / Python `max` over a non-empty list (the `[]` case is
unreachable at every call site). -/
def pythonMax (l : List ℚ) : ℚ :=
  match l with
  | [] => 0
  | x :: xs => xs.foldl max x

/-- `np.amin` over a non-empty list. -/
def pythonMin (l : List ℚ) : ℚ :=
  match l with
  | [] => 0
  | x :: xs => xs.foldl min x

/-- The two `ValueError` conditions of `scipy.stats.linregress`. -/
inductive LinregressError where
  | emptyInput
  | identicalX
deriving DecidableEq

/-- Result of `scipy.stats.linregress` as consumed by `analyze_group`:
`slope` and `intercept` are `none` when the float computation yields NaN
(the `0/0` of a single-sample input); `rvalueSq` is the square of the `rvalue`
field, the only form in which `analyze_group` uses it (`rvalue` itself is an
irrational square root; its square is rational). -/
structure LinregressResult where
  slope : Option ℚ
  intercept : Option ℚ
  rvalueSq : ℚ
deriving DecidableEq

/-- Model of `scipy.stats.linregress(x, y)`, the external call inside
`analyze_group`: raises `ValueError` on empty input and when all `x` values
are identical with more than one sample; otherwise computes the bias-1
covariance moments `ssxm = mean((x - mean x)^2)`, `ssym`, `ssxym`, and from
them `slope = ssxym / ssxm`, `intercept = mean y - slope * mean x`, and the
correlation `r` (`0` when `ssxm` or `ssym` vanishes, clamped into `[-1, 1]`,
so `r^2 = min (ssxym^2 / (ssxm * ssym)) 1`).  When `ssxm = 0` (single sample)
the float `slope` is `0/0 =` NaN, modelled as `none`, and the NaN propagates
into `intercept`. -/
def linregress (x y : List ℚ) : Except LinregressError LinregressResult :=
  if x.isEmpty || y.isEmpty then .error .emptyInput
  else if pythonMax x = pythonMin x ∧ 1 < x.length then .error .identicalX
  else
    let xmean := npMean x
    let ymean := npMean y
    let ssxm := npMean (x.map fun v => (v - xmean) ^ 2)
    let ssym := npMean (y.map fun v => (v - ymean) ^ 2)
    let ssxym := npMean (List.zipWith (fun a b => (a - xmean) * (b - ymean)) x y)
    let rvalueSq : ℚ := if ssxm = 0 ∨ ssym = 0 then 0 else min (ssxym ^ 2 / (ssxm * ssym)) 1
    let slope : Option ℚ := if ssxm = 0 then none else some (ssxym / ssxm)
    let intercept : Option ℚ := slope.map fun s => ymean - s * xmean
    .ok ⟨slope, intercept, rvalueSq⟩

/-- Python `str.lower` on the ASCII strings compared here: character-wise
lowering of the underlying character list.  (It is the same function as
`String.toLower`; that one is defined by well-founded recursion over
byte positions, which blocks kernel reduction in concrete proofs.) -/
def pyLower (s : String) : String := ⟨s.data.map Char.toLower⟩

/-- The filter at the top of `analyze_group`: exact match on `method`,
case-insensitive match on `direction` unless `direction` is `"All"`. -/
def filteredResults (individual_results : List IndividualComparisonResult)
    (method direction : String) : List IndividualComparisonResult :=
  individual_results.filter fun r =>
    r.method == method && (direction == "All" || pyLower r.direction == pyLower direction)

/-- The list comprehension collecting the non-infinite relative errors of a
filtered group. -/
def finiteRelErrors (l : List IndividualComparisonResult) : List ℚ :=
  l.filterMap fun r =>
    match r.relative_error with
    | .inf => none
    | .fin q => some q

/-- Python chained comparison `lo <= v <= hi` where `v` may be float NaN
(`none`): NaN makes the chain `False`. -/
def inBandOpt (lo : ℚ) (v : Option ℚ) (hi : ℚ) : Bool :=
  match v with
  | none => false
  | some q => decide (lo ≤ q) && decide (q ≤ hi)

/-- `ComparisonEngine.analyze_group`.  The `Except` carries the `ValueError`
that `stats.linregress` can raise out of the non-empty branch. -/
def analyze_group (cfg : Config) (individual_results : List IndividualComparisonResult)
    (method : String) (direction : String) :
    Except LinregressError GroupComparisonResult :=
  let fr := filteredResults individual_results method direction
  if fr.isEmpty then
    .ok ⟨method, direction, 0, 0, some 0, some 0, 0, false, 0, 0, 0⟩
  else
    let number_of_samples := fr.length
    let passing_tests := (fr.filter fun r => r.passes_tolerance).length
    let percent_passing := ((passing_tests : ℚ) / (number_of_samples : ℚ)) * 100
    match linregress (fr.map fun r => r.legacy_value) (fr.map fun r => r.pyslammer_value) with
    | .error e => .error e
    | .ok reg =>
      let relative_errors := finiteRelErrors fr
      let mean_relative_error := if relative_errors.isEmpty then 0 else npMean relative_errors
      let std_relative_error := if relative_errors.isEmpty then 0 else npVariance relative_errors
      let max_absolute_error := pythonMax (fr.map fun r => r.absolute_error)
      let passes_percent_threshold : Bool := decide (percentPassingThreshold cfg ≤ percent_passing)
      let passes_slope : Bool := inBandOpt (slopeMinThreshold cfg) reg.slope (slopeMaxThreshold cfg)
      let passes_intercept : Bool :=
        inBandOpt (interceptMinThreshold cfg) reg.intercept (interceptMaxThreshold cfg)
      let passes_r_squared : Bool := decide (rSquaredMinThreshold cfg ≤ reg.rvalueSq)
      .ok ⟨method, direction, number_of_samples, percent_passing,
        reg.slope, reg.intercept, reg.rvalueSq,
        passes_percent_threshold && passes_slope && passes_intercept && passes_r_squared,
        mean_relative_error, std_relative_error, max_absolute_error⟩

/-- `GroundMotionParameters` dataclass from `schemas.py`. -/
structure GroundMotionParameters where
  earthquake : String
  record_station : String
  target_pga_g : ℚ
  ground_motion_file : String
  description : Option String := none
deriving DecidableEq

/-- `Analysis` dataclass from `schemas.py`. -/
structure Analysis where
  method : String
  mode : Option String := none
deriving DecidableEq

/-- `SiteParameters` dataclass from `schemas.py`. -/
structure SiteParameters where
  ky_g : ℚ
  height_m : Option ℚ := none
  vs_slope_mps : Option ℚ := none
  vs_base_mps : Option ℚ := none
  damping_ratio : Option ℚ := none
  reference_strain : Option ℚ := none
deriving DecidableEq

/-- `Results` dataclass from `schemas.py`. -/
structure Results where
  normal_displacement_cm : ℚ
  inverse_displacement_cm : ℚ
  kmax : Option ℚ := none
  vs_final_mps : Option ℚ := none
  damping_final : Option ℚ := none
deriving DecidableEq

/-- `AnalysisRecord` dataclass from `schemas.py`. -/
structure AnalysisRecord where
  analysis_id : String
  ground_motion_parameters : GroundMotionParameters
  analysis : Analysis
  site_parameters : SiteParameters
  results : Results
deriving DecidableEq

/-- `ComparisonEngine.compare_analysis_record`: one comparison per direction,
with the direction strings `"normal"` and `"inverse"` hard-coded in lower
case. -/
def compare_analysis_record (cfg : Config) (analysis_record : AnalysisRecord)
    (pyslammer_results : Results) : Except String (List IndividualComparisonResult) :=
  let method := analysis_record.analysis.method
  match compare_individual_test cfg (analysis_record.analysis_id ++ "_normal") method "normal"
      analysis_record.results.normal_displacement_cm
      pyslammer_results.normal_displacement_cm with
  | .error e => .error e
  | .ok normal_result =>
    match compare_individual_test cfg (analysis_record.analysis_id ++ "_inverse") method "inverse"
        analysis_record.results.inverse_displacement_cm
        pyslammer_results.inverse_displacement_cm with
    | .error e => .error e
    | .ok inverse_result => .ok [normal_result, inverse_result]

/-- One value of the per-method summary dictionary built by
`generate_verification_summary`.  The two mean fields are `Option ℚ` because
`np.mean` of an empty list is float NaN (`none`); the guards in the source
replace them by `0.0` only when the method has no results at all. -/
structure MethodSummary where
  total_tests : ℕ
  passing_tests : ℕ
  pass_rate : ℚ
  mean_absolute_error : Option ℚ
  mean_relative_error : Option ℚ
deriving DecidableEq

/-- `VerificationSummary` dataclass. -/
structure VerificationSummary where
  total_tests : ℕ
  passing_tests : ℕ
  failing_tests : ℕ
  overall_pass_rate : ℚ
  individual_results : List IndividualComparisonResult
  group_results : List GroupComparisonResult
  method_summaries : List (String × MethodSummary)
deriving DecidableEq

/-- The nested `for method: for direction:` loop of
`generate_verification_summary`, keeping only groups with at least one
sample; the first `ValueError` out of `analyze_group` aborts the whole
summary, exactly as an uncaught Python exception would. -/
def collectGroups (cfg : Config) (individual_results : List IndividualComparisonResult) :
    List (String × String) → Except LinregressError (List GroupComparisonResult)
  | [] => .ok []
  | (m, d) :: rest =>
    match analyze_group cfg individual_results m d with
    | .error e => .error e
    | .ok g =>
      match collectGroups cfg individual_results rest with
      | .error e => .error e
      | .ok gs => .ok (if 0 < g.number_of_samples then g :: gs else gs)

/-- The per-method summary dictionary entry for one method. -/
def methodSummaryFor (individual_results : List IndividualComparisonResult)
    (method : String) : MethodSummary :=
  let method_results := individual_results.filter fun r => r.method == method
  let method_passing := (method_results.filter fun r => r.passes_tolerance).length
  { total_tests := method_results.length
    passing_tests := method_passing
    pass_rate :=
      if method_results.isEmpty then 0
      else ((method_passing : ℚ) / (method_results.length : ℚ)) * 100
    mean_absolute_error :=
      if method_results.isEmpty then some 0
      else npMeanOpt (method_results.map fun r => r.absolute_error)
    mean_relative_error :=
      if method_results.isEmpty then some 0
      else npMeanOpt (finiteRelErrors method_results) }

/-- `ComparisonEngine.generate_verification_summary`.  `methods`
(`list(set(...))` in the source, an order the Python set leaves unspecified)
is modelled as deduplication of the method names in input order; no claim
depends on the order of `group_results` or `method_summaries`. -/
def generate_verification_summary (cfg : Config)
    (individual_results : List IndividualComparisonResult) :
    Except LinregressError VerificationSummary :=
  let total_tests := individual_results.length
  let passing_tests := (individual_results.filter fun r => r.passes_tolerance).length
  let failing_tests := total_tests - passing_tests
  let overall_pass_rate : ℚ :=
    if 0 < total_tests then ((passing_tests : ℚ) / (total_tests : ℚ)) * 100 else 0
  let methods := (individual_results.map fun r => r.method).dedup
  let directions := ["Normal", "Inverse", "All"]
  let pairs := (methods.map fun m => directions.map fun d => (m, d)).flatten
  match collectGroups cfg individual_results pairs with
  | .error e => .error e
  | .ok group_results =>
    let method_summaries := methods.map fun m => (m, methodSummaryFor individual_results m)
    .ok ⟨total_tests, passing_tests, failing_tests, overall_pass_rate,
      individual_results, group_results, method_summaries⟩

/-! Concrete configurations and comparison results used by witnesses and
counterexamples. -/

/-- The empty configuration mapping: no `tolerances` table at all. -/
def cfgEmpty : Config := {}

/-- A minimal `[tolerances]` table carrying only the two keys `get_tolerance`
reads with bracket indexing. -/
def tolBasic : TolerancesTable :=
  { default_relative := some (1 / 10), default_absolute := some (1 / 2) }

/-- A configuration with `default_relative = 0.1` and `default_absolute = 0.5`
and nothing else. -/
def cfgBasic : Config := ⟨some tolBasic⟩

/-- A passing comparison result: method `rigid`, direction `normal`,
reference = candidate = 1. -/
def icrOne : IndividualComparisonResult :=
  ⟨"t1", "rigid", "normal", 0, .fin 0, .fin 0, true, ⟨.fin (1 / 10), 1 / 2⟩, 1, 1, "cm"⟩

/-- A failing comparison result with the same reference value 1 as `icrOne`. -/
def icrTwo : IndividualComparisonResult :=
  ⟨"t2", "rigid", "inverse", 1, .fin 1, .fin 100, false, ⟨.fin (1 / 10), 1 / 2⟩, 1, 2, "cm"⟩

/-- The comparison result `compare_individual_test cfgBasic "t3" "rigid"
"normal" 0 5` produces: zero reference, infinite relative error. -/
def icrInf : IndividualComparisonResult :=
  ⟨"t3", "rigid", "normal", 5, .inf, .inf, false, ⟨.fin (1 / 10), 1 / 2⟩, 0, 5, "cm"⟩

/-! Helper lemmas shared by the claim theorems. -/

/-- The configuration keys `get_tolerance` dereferences with bracket indexing
(everything else in the engine is a defensive `dict.get`): the `tolerances`
table with its `default_relative` and `default_absolute` entries. -/
def hasDefaultTolerances (cfg : Config) : Prop :=
  (cfg.tolerances.bind TolerancesTable.default_relative).isSome = true ∧
  (cfg.tolerances.bind TolerancesTable.default_absolute).isSome = true

theorem get_tolerance_ok (cfg : Config) (method : String) (dv : Option ℚ)
    (h : hasDefaultTolerances cfg) : ∃ ts, get_tolerance cfg method dv = Except.ok ts := by
  obtain ⟨h1, h2⟩ := h
  cases hc : cfg.tolerances with
  | none => rw [hc] at h1; simp at h1
  | some t =>
    rw [hc] at h1 h2
    simp only [Option.some_bind, Option.isSome_iff_exists] at h1 h2
    obtain ⟨dr, hr⟩ := h1
    obtain ⟨da, ha⟩ := h2
    cases dv with
    | none => simp only [get_tolerance, hc, hr, ha]; exact ⟨_, rfl⟩
    | some v =>
      simp only [get_tolerance, hc, hr, ha]
      by_cases hle : v ≤ smallDisplacementThreshold cfg
      · rw [if_pos hle]; exact ⟨_, rfl⟩
      · rw [if_neg hle]; exact ⟨_, rfl⟩

theorem foldl_max_const (xs : List ℚ) (a : ℚ) (h : ∀ v ∈ xs, v = a) :
    xs.foldl max a = a := by
  induction xs with
  | nil => rfl
  | cons y ys ih =>
    have hy : y = a := h y (by simp)
    subst hy
    have : max y y = y := max_self y
    simpa [this] using ih fun v hv => h v (by simp [hv])

theorem foldl_min_const (xs : List ℚ) (a : ℚ) (h : ∀ v ∈ xs, v = a) :
    xs.foldl min a = a := by
  induction xs with
  | nil => rfl
  | cons y ys ih =>
    have hy : y = a := h y (by simp)
    subst hy
    have : min y y = y := min_self y
    simpa [this] using ih fun v hv => h v (by simp [hv])

theorem pythonMax_const (l : List ℚ) (c : ℚ) (hne : l ≠ [])
    (h : ∀ v ∈ l, v = c) : pythonMax l = c := by
  cases l with
  | nil => exact absurd rfl hne
  | cons x xs =>
    have hx : x = c := h x (by simp)
    subst hx
    exact foldl_max_const xs x fun v hv => h v (by simp [hv])

theorem pythonMin_const (l : List ℚ) (c : ℚ) (hne : l ≠ [])
    (h : ∀ v ∈ l, v = c) : pythonMin l = c := by
  cases l with
  | nil => exact absurd rfl hne
  | cons x xs =>
    have hx : x = c := h x (by simp)
    subst hx
    exact foldl_min_const xs x fun v hv => h v (by simp [hv])

/-- C1: whenever `compare_individual_test` returns a result, the result
passes tolerance iff: when the reference (`legacy`) value is at most the
small-displacement threshold (default `0.5` on an absent configuration),
`absolute_error ≤ tolerance.absolute` with the relative check skipped
entirely regardless of the resolved relative tolerance; otherwise
`absolute_error ≤ tolerance.absolute` and `relative_error ≤
tolerance.relative` both hold. -/
theorem compare_individual_test_pass_rule (cfg : Config) (tid m d : String)
    (lv pv : ℚ) (res : IndividualComparisonResult)
    (h : compare_individual_test cfg tid m d lv pv = Except.ok res) :
    (res.passes_tolerance = true ↔
      (if lv ≤ smallDisplacementThreshold cfg then
        res.absolute_error ≤ res.tolerance_used.absolute
      else
        res.absolute_error ≤ res.tolerance_used.absolute ∧
          res.relative_error.le res.tolerance_used.relative = true)) ∧
    smallDisplacementThreshold cfgEmpty = 1 / 2 := by
  refine ⟨?_, by norm_num [smallDisplacementThreshold, Config.valueDependentD,
    Config.tolerancesD, cfgEmpty]⟩
  cases hg : get_tolerance cfg m (some lv) with
  | error e =>
    simp only [compare_individual_test, hg] at h
    exact Except.noConfusion h
  | ok tol =>
    simp only [compare_individual_test, hg, Except.ok.injEq] at h
    subst h
    by_cases hle : lv ≤ smallDisplacementThreshold cfg
    · simp only [if_pos hle, decide_eq_true_eq]
    · simp only [if_neg hle, Bool.and_eq_true, decide_eq_true_eq]

/-- Witness for C1: with the basic configuration, comparing reference 2
against candidate 2.05 (above the 0.5 threshold) yields a result whose pass
flag is governed by both the absolute and the relative check. -/
theorem compare_individual_test_pass_rule_witness :
    ∃ res, compare_individual_test cfgBasic "w1" "rigid" "normal" 2 (41 / 20) =
        Except.ok res ∧
      (res.passes_tolerance = true ↔
        (if (2 : ℚ) ≤ smallDisplacementThreshold cfgBasic then
          res.absolute_error ≤ res.tolerance_used.absolute
        else
          res.absolute_error ≤ res.tolerance_used.absolute ∧
            res.relative_error.le res.tolerance_used.relative = true)) := by
  have h : compare_individual_test cfgBasic "w1" "rigid" "normal" 2 (41 / 20) =
      Except.ok ⟨"w1", "rigid", "normal", 1 / 20, .fin (1 / 40), .fin (5 / 2), true,
        ⟨.fin (1 / 10), 1 / 2⟩, 2, 41 / 20, "cm"⟩ := by
    norm_num [compare_individual_test, get_tolerance, cfgBasic, tolBasic,
      smallDisplacementThreshold, Config.valueDependentD, Config.tolerancesD,
      PyFloat.le, abs_of_nonneg]
  exact ⟨_, h,
    (compare_individual_test_pass_rule cfgBasic "w1" "rigid" "normal" 2 (41 / 20) _ h).1⟩

/-- C2: as long as the configured default tolerances are present (so that
`get_tolerance` cannot raise), `compare_individual_test` never raises, and
the metrics of its result are: `absolute_error = |candidate − reference|`
always; for a zero reference, `relative_error` is `+∞` when the absolute
error is positive and `0` otherwise, and `percent_difference` is `+∞` when
the candidate is nonzero and `0` otherwise; for a nonzero reference,
`relative_error = absolute_error / |reference|` and `percent_difference =
(candidate − reference) / reference * 100`. -/
theorem compare_individual_test_error_metrics (cfg : Config) (tid m d : String)
    (lv pv : ℚ) (hcfg : hasDefaultTolerances cfg) :
    ∃ res, compare_individual_test cfg tid m d lv pv = Except.ok res ∧
      res.absolute_error = |pv - lv| ∧
      (lv = 0 →
        res.relative_error = (if 0 < |pv - lv| then PyFloat.inf else PyFloat.fin 0) ∧
        res.percent_difference = (if pv ≠ 0 then PyFloat.inf else PyFloat.fin 0)) ∧
      (lv ≠ 0 →
        res.relative_error = PyFloat.fin (|pv - lv| / |lv|) ∧
        res.percent_difference = PyFloat.fin ((pv - lv) / lv * 100)) := by
  obtain ⟨tol, hg⟩ := get_tolerance_ok cfg m (some lv) hcfg
  simp only [compare_individual_test, hg]
  refine ⟨_, rfl, rfl, fun h0 => ?_, fun h0 => ?_⟩
  · subst h0
    constructor
    · simp only [ne_eq, not_true_eq_false, if_false, gt_iff_lt]
    · simp only [ne_eq, not_true_eq_false, if_false]
  · constructor
    · simp only [ne_eq, h0, not_false_eq_true, if_true]
    · simp only [ne_eq, h0, not_false_eq_true, if_true]

/-- Witness for C2: the basic configuration has its default tolerance keys,
and comparing reference 0 against candidate 5 gives absolute error 5 and
infinite relative error and percent difference. -/
theorem compare_individual_test_error_metrics_witness :
    ∃ res, compare_individual_test cfgBasic "t3" "rigid" "normal" 0 5 = Except.ok res ∧
      res.absolute_error = |(5 : ℚ) - 0| ∧
      ((0 : ℚ) = 0 →
        res.relative_error = (if 0 < |(5 : ℚ) - 0| then PyFloat.inf else PyFloat.fin 0) ∧
        res.percent_difference = (if (5 : ℚ) ≠ 0 then PyFloat.inf else PyFloat.fin 0)) ∧
      ((0 : ℚ) ≠ 0 →
        res.relative_error = PyFloat.fin (|(5 : ℚ) - 0| / |(0 : ℚ)|) ∧
        res.percent_difference = PyFloat.fin (((5 : ℚ) - 0) / 0 * 100)) := by
  have hres := compare_individual_test_error_metrics cfgBasic "t3" "rigid" "normal" 0 5
    (by constructor <;> norm_num [cfgBasic, tolBasic])
  obtain ⟨res, h1, h2, h3, h4⟩ := hres
  exact ⟨res, h1, h2, h3, h4⟩

/-- C7 counterexample: on the empty configuration mapping, `get_tolerance`
raises (`config["tolerances"]` is a `KeyError`), contradicting the claim that
it never raises for every configuration mapping including one missing the
tolerance keys. -/
theorem get_tolerance_raises_on_empty_config :
    get_tolerance cfgEmpty "rigid" none = Except.error "KeyError: tolerances" := rfl

/-- C7 amended: `get_tolerance` returns a `ToleranceSettings` value for every
method and displacement exactly when the configuration carries the
`tolerances` table with its `default_relative` and `default_absolute` keys,
which it dereferences with bracket indexing; every other configuration key is
read defensively and substituted by its default when absent.  When one of
those three keys is missing it raises `KeyError` instead. -/
theorem get_tolerance_defensive_defaults (cfg : Config) (method : String) (dv : Option ℚ) :
    (hasDefaultTolerances cfg → ∃ ts, get_tolerance cfg method dv = Except.ok ts) ∧
    (¬ hasDefaultTolerances cfg → ∃ e, get_tolerance cfg method dv = Except.error e) := by
  refine ⟨get_tolerance_ok cfg method dv, fun hnot => ?_⟩
  cases hc : cfg.tolerances with
  | none => exact ⟨"KeyError: tolerances", by simp only [get_tolerance, hc]⟩
  | some t =>
    cases hr : t.default_relative with
    | none => exact ⟨"KeyError: default_relative", by simp only [get_tolerance, hc, hr]⟩
    | some dr =>
      cases ha : t.default_absolute with
      | none => exact ⟨"KeyError: default_absolute", by simp only [get_tolerance, hc, hr, ha]⟩
      | some da =>
        exact absurd ⟨by simp [hc, hr], by simp [hc, ha]⟩ hnot

/-- Witness for C7 (amended): the basic configuration has the required keys
and yields a tolerance value; the empty configuration lacks them and yields
an error. -/
theorem get_tolerance_defensive_defaults_witness :
    (∃ ts, get_tolerance cfgBasic "rigid" (some 1) = Except.ok ts) ∧
    (∃ e, get_tolerance cfgEmpty "decoupled" none = Except.error e) :=
  ⟨(get_tolerance_defensive_defaults cfgBasic "rigid" (some 1)).1
      ⟨by norm_num [cfgBasic, tolBasic], by norm_num [cfgBasic, tolBasic]⟩,
    (get_tolerance_defensive_defaults cfgEmpty "decoupled" none).2
      (by simp [hasDefaultTolerances, cfgEmpty])⟩

/-- C5: on an empty filtered set, `analyze_group` does not raise and returns
the explicit sentinel group result: zero samples, zero percent passing, zero
regression values, zero error statistics and a failing pass flag. -/
theorem analyze_group_empty_sentinel (cfg : Config)
    (rs : List IndividualComparisonResult) (m d : String)
    (h : filteredResults rs m d = []) :
    analyze_group cfg rs m d =
      Except.ok ⟨m, d, 0, 0, some 0, some 0, 0, false, 0, 0, 0⟩ := by
  simp [analyze_group, h]

/-- Witness for C5: the empty input list filters to the empty set for
`("rigid", "All")` and produces the zero sentinel. -/
theorem analyze_group_empty_sentinel_witness :
    analyze_group cfgEmpty [] "rigid" "All" =
      Except.ok ⟨"rigid", "All", 0, 0, some 0, some 0, 0, false, 0, 0, 0⟩ :=
  analyze_group_empty_sentinel cfgEmpty [] "rigid" "All" rfl

/-- C3: on a non-empty filtered group that returns, the group passes
tolerance iff all four checks hold: percent passing at least the configured
threshold (default 95), slope within the configured band (default
[0.99, 1.01], false for a NaN slope), intercept within the configured band
(default [-0.1, 0.1]), and r-squared at least the configured minimum
(default 0.99). -/
theorem analyze_group_pass_rule (cfg : Config) (rs : List IndividualComparisonResult)
    (m d : String) (g : GroupComparisonResult)
    (hne : filteredResults rs m d ≠ [])
    (h : analyze_group cfg rs m d = Except.ok g) :
    (g.passes_tolerance = true ↔
      (percentPassingThreshold cfg ≤ g.percent_passing_individual_tests ∧
       inBandOpt (slopeMinThreshold cfg) g.lin_regression_slope (slopeMaxThreshold cfg) = true ∧
       inBandOpt (interceptMinThreshold cfg) g.lin_regression_intercept
         (interceptMaxThreshold cfg) = true ∧
       rSquaredMinThreshold cfg ≤ g.lin_regression_r_squared)) ∧
    percentPassingThreshold cfgEmpty = 95 ∧
    slopeMinThreshold cfgEmpty = 99 / 100 ∧ slopeMaxThreshold cfgEmpty = 101 / 100 ∧
    interceptMinThreshold cfgEmpty = -(1 / 10) ∧ interceptMaxThreshold cfgEmpty = 1 / 10 ∧
    rSquaredMinThreshold cfgEmpty = 99 / 100 := by
  have hfe : (filteredResults rs m d).isEmpty = false := by
    simpa [List.isEmpty_iff] using hne
  refine ⟨?_, by norm_num [percentPassingThreshold, Config.tolerancesD, cfgEmpty],
    by norm_num [slopeMinThreshold, Config.tolerancesD, cfgEmpty],
    by norm_num [slopeMaxThreshold, Config.tolerancesD, cfgEmpty],
    by norm_num [interceptMinThreshold, Config.tolerancesD, cfgEmpty],
    by norm_num [interceptMaxThreshold, Config.tolerancesD, cfgEmpty],
    by norm_num [rSquaredMinThreshold, Config.tolerancesD, cfgEmpty]⟩
  simp only [analyze_group, hfe, Bool.false_eq_true, if_false] at h
  cases hlin : linregress (List.map (fun r => r.legacy_value) (filteredResults rs m d))
      (List.map (fun r => r.pyslammer_value) (filteredResults rs m d)) with
  | error e => rw [hlin] at h; exact Except.noConfusion h
  | ok reg =>
    rw [hlin] at h
    simp only [Except.ok.injEq] at h
    subst h
    simp only [Bool.and_eq_true, decide_eq_true_eq]
    tauto

/-- One more passing comparison result with reference value 2, giving the
`(1,1), (2,2)` perfect-regression pair together with `icrOne`. -/
def icrThree : IndividualComparisonResult :=
  ⟨"t4", "rigid", "inverse", 0, .fin 0, .fin 0, true, ⟨.fin (1 / 10), 1 / 2⟩, 2, 2, "cm"⟩

/-- Witness for C3: the perfect group `(1,1), (2,2)` under default thresholds
gives slope 1, intercept 0, r-squared 1, percent passing 100 and the group
passes. -/
theorem analyze_group_pass_rule_witness :
    ∃ g, analyze_group cfgEmpty [icrOne, icrThree] "rigid" "All" = Except.ok g ∧
      g.passes_tolerance = true ∧
      (percentPassingThreshold cfgEmpty ≤ g.percent_passing_individual_tests ∧
       inBandOpt (slopeMinThreshold cfgEmpty) g.lin_regression_slope
         (slopeMaxThreshold cfgEmpty) = true ∧
       inBandOpt (interceptMinThreshold cfgEmpty) g.lin_regression_intercept
         (interceptMaxThreshold cfgEmpty) = true ∧
       rSquaredMinThreshold cfgEmpty ≤ g.lin_regression_r_squared) := by
  have h : analyze_group cfgEmpty [icrOne, icrThree] "rigid" "All" =
      Except.ok ⟨"rigid", "All", 2, 100, some 1, some 0, 1, true, 0, 0, 0⟩ := by
    norm_num [analyze_group, filteredResults, icrOne, icrThree, linregress, npMean,
      npVariance, pythonMax, pythonMin, finiteRelErrors, inBandOpt,
      percentPassingThreshold, slopeMinThreshold, slopeMaxThreshold,
      interceptMinThreshold, interceptMaxThreshold, rSquaredMinThreshold,
      Config.tolerancesD, Config.valueDependentD, cfgEmpty, List.filter, List.filterMap]
  refine ⟨_, h, rfl, ?_⟩
  exact (analyze_group_pass_rule cfgEmpty [icrOne, icrThree] "rigid" "All" _
    (by simp [filteredResults, icrOne, icrThree, List.filter]) h).1.mp rfl

/-- C4 counterexample: on a two-sample group whose reference values are both
1 (zero variance in x), `analyze_group` propagates the `ValueError` that
`stats.linregress` raises for identical x values instead of returning a
sentinel; and on a one-sample group (also fewer than 2 distinct x values) it
does return, but with NaN slope rather than the claimed sentinel `slope = 0`. -/
theorem analyze_group_degenerate_counterexample :
    analyze_group cfgEmpty [icrOne, icrTwo] "rigid" "All" =
      Except.error LinregressError.identicalX ∧
    (∃ g, analyze_group cfgEmpty [icrOne] "rigid" "All" = Except.ok g ∧
      g.lin_regression_slope = none ∧ g.lin_regression_slope ≠ some 0) := by
  constructor
  · norm_num [analyze_group, filteredResults, icrOne, icrTwo, linregress, npMean,
      pythonMax, pythonMin, List.filter]
  · refine ⟨⟨"rigid", "All", 1, 100, none, none, 0, false, 0, 0, 0⟩, ?_, rfl, by simp⟩
    norm_num [analyze_group, filteredResults, icrOne, linregress, npMean, npVariance,
      pythonMax, pythonMin, finiteRelErrors, inBandOpt, percentPassingThreshold,
      slopeMinThreshold, slopeMaxThreshold, interceptMinThreshold, interceptMaxThreshold,
      rSquaredMinThreshold, Config.tolerancesD, Config.valueDependentD, cfgEmpty,
      List.filter, List.filterMap]

/-- C4 amended: on a non-empty filtered group whose reference (x) values are
all equal, `analyze_group` does not return the `(0, 0, 0)` sentinel: with two
or more samples the underlying regression raises `ValueError` (identical x
values) and the exception propagates; with exactly one sample it returns
without raising, with `r_squared = 0` but NaN (not 0) slope and intercept. -/
theorem analyze_group_degenerate_regression (cfg : Config)
    (rs : List IndividualComparisonResult) (m d : String) (c : ℚ)
    (hconst : ∀ r ∈ filteredResults rs m d, r.legacy_value = c) :
    (1 < (filteredResults rs m d).length →
      analyze_group cfg rs m d = Except.error LinregressError.identicalX) ∧
    (∀ r, filteredResults rs m d = [r] →
      ∃ g, analyze_group cfg rs m d = Except.ok g ∧
        g.lin_regression_slope = none ∧ g.lin_regression_intercept = none ∧
        g.lin_regression_r_squared = 0) := by
  constructor
  · intro hlen
    have hne : filteredResults rs m d ≠ [] := by
      intro hnil; rw [hnil] at hlen; simp at hlen
    have hfe : (filteredResults rs m d).isEmpty = false := by
      simpa [List.isEmpty_iff] using hne
    have hxne : (filteredResults rs m d).map (fun r => r.legacy_value) ≠ [] := by
      simpa using hne
    have hxconst : ∀ v ∈ (filteredResults rs m d).map (fun r => r.legacy_value), v = c := by
      intro v hv
      obtain ⟨r, hr, hrv⟩ := List.mem_map.mp hv
      rw [← hrv]; exact hconst r hr
    have hmax : pythonMax ((filteredResults rs m d).map fun r => r.legacy_value) = c :=
      pythonMax_const _ c hxne hxconst
    have hmin : pythonMin ((filteredResults rs m d).map fun r => r.legacy_value) = c :=
      pythonMin_const _ c hxne hxconst
    have hlin : linregress ((filteredResults rs m d).map fun r => r.legacy_value)
        ((filteredResults rs m d).map fun r => r.pyslammer_value) =
        Except.error LinregressError.identicalX := by
      unfold linregress
      rw [if_neg, if_pos]
      · exact ⟨hmax.trans hmin.symm, by simpa using hlen⟩
      · simp [List.isEmpty_iff, hne]
    simp only [analyze_group, hfe, Bool.false_eq_true, if_false, hlin]
  · intro r hfr
    have hfe : (filteredResults rs m d).isEmpty = false := by simp [hfr]
    have hlin : linregress ((filteredResults rs m d).map fun r => r.legacy_value)
        ((filteredResults rs m d).map fun r => r.pyslammer_value) =
        Except.ok ⟨none, none, 0⟩ := by
      rw [hfr]
      norm_num [linregress, npMean, pythonMax, pythonMin]
    simp only [analyze_group, hfe, Bool.false_eq_true, if_false, hlin]
    exact ⟨_, rfl, rfl, rfl, rfl⟩

/-- Witness for C4 (amended): the group `icrOne, icrTwo` has both reference
values equal to 1 and more than one sample, and `analyze_group` propagates
the regression error on it; the singleton group `icrOne` returns NaN slope
and intercept with zero r-squared. -/
theorem analyze_group_degenerate_regression_witness :
    analyze_group cfgEmpty [icrOne, icrTwo] "rigid" "All" =
      Except.error LinregressError.identicalX ∧
    (∃ g, analyze_group cfgEmpty [icrOne] "rigid" "All" = Except.ok g ∧
      g.lin_regression_slope = none ∧ g.lin_regression_intercept = none ∧
      g.lin_regression_r_squared = 0) := by
  constructor
  · exact (analyze_group_degenerate_regression cfgEmpty [icrOne, icrTwo] "rigid" "All" 1
      (by intro r hr; simp [filteredResults, icrOne, icrTwo, List.filter] at hr
          rcases hr with h | h <;> simp [h, icrOne, icrTwo])).1
      (by simp [filteredResults, icrOne, icrTwo, List.filter])
  · exact (analyze_group_degenerate_regression cfgEmpty [icrOne] "rigid" "All" 1
      (by intro r hr; simp [filteredResults, icrOne, List.filter] at hr
          simp [hr, icrOne])).2 icrOne
      (by simp [filteredResults, icrOne, List.filter])

/-- C8: on a non-empty filtered group that returns, the mean and the spread
of the relative error are computed over exactly the comparison results whose
relative error is finite (non-infinite); when no relative error in the group
is finite both statistics are 0; and `max_absolute_error` is the maximum
absolute error over the whole filtered set.  (`std_relative_error` here
carries the square of the `np.std` value; see `GroupComparisonResult`.) -/
theorem analyze_group_error_statistics (cfg : Config)
    (rs : List IndividualComparisonResult) (m d : String) (g : GroupComparisonResult)
    (hne : filteredResults rs m d ≠ [])
    (h : analyze_group cfg rs m d = Except.ok g) :
    (finiteRelErrors (filteredResults rs m d) = [] →
      g.mean_relative_error = 0 ∧ g.std_relative_error = 0) ∧
    (finiteRelErrors (filteredResults rs m d) ≠ [] →
      g.mean_relative_error = npMean (finiteRelErrors (filteredResults rs m d)) ∧
      g.std_relative_error = npVariance (finiteRelErrors (filteredResults rs m d))) ∧
    g.max_absolute_error = pythonMax ((filteredResults rs m d).map fun r => r.absolute_error) := by
  have hfe : (filteredResults rs m d).isEmpty = false := by
    simpa [List.isEmpty_iff] using hne
  simp only [analyze_group, hfe, Bool.false_eq_true, if_false] at h
  cases hlin : linregress (List.map (fun r => r.legacy_value) (filteredResults rs m d))
      (List.map (fun r => r.pyslammer_value) (filteredResults rs m d)) with
  | error e => rw [hlin] at h; exact Except.noConfusion h
  | ok reg =>
    rw [hlin] at h
    simp only [Except.ok.injEq] at h
    subst h
    refine ⟨fun hnil => ?_, fun hnnil => ?_, rfl⟩
    · constructor <;> simp [hnil]
    · have : (finiteRelErrors (filteredResults rs m d)).isEmpty = false := by
        simpa [List.isEmpty_iff] using hnnil
      constructor <;> simp [this]

/-- A comparison result with infinite relative error (zero reference,
candidate 5) and a reference value distinct from `icrOne`, so the pair
regresses without error. -/
def icrInfB : IndividualComparisonResult :=
  ⟨"t5", "rigid", "inverse", 5, .inf, .inf, false, ⟨.fin (1 / 10), 1 / 2⟩, 0, 5, "cm"⟩

/-- Witness for C8: the group `icrOne, icrInfB` mixes a finite and an
infinite relative error; the statistics come from the finite one alone and
the maximum absolute error from the whole set. -/
theorem analyze_group_error_statistics_witness :
    ∃ g, analyze_group cfgEmpty [icrOne, icrInfB] "rigid" "All" = Except.ok g ∧
      g.mean_relative_error = npMean (finiteRelErrors (filteredResults [icrOne, icrInfB] "rigid" "All")) ∧
      g.std_relative_error = npVariance (finiteRelErrors (filteredResults [icrOne, icrInfB] "rigid" "All")) ∧
      g.max_absolute_error =
        pythonMax ((filteredResults [icrOne, icrInfB] "rigid" "All").map fun r => r.absolute_error) := by
  have h : analyze_group cfgEmpty [icrOne, icrInfB] "rigid" "All" =
      Except.ok ⟨"rigid", "All", 2, 50, some (-4), some 5, 1, false, 0, 0, 5⟩ := by
    norm_num [analyze_group, filteredResults, icrOne, icrInfB, linregress, npMean,
      npVariance, pythonMax, pythonMin, finiteRelErrors, inBandOpt, percentPassingThreshold,
      slopeMinThreshold, slopeMaxThreshold, interceptMinThreshold, interceptMaxThreshold,
      rSquaredMinThreshold, Config.tolerancesD, Config.valueDependentD, cfgEmpty,
      List.filter, List.filterMap]
  have hr := analyze_group_error_statistics cfgEmpty [icrOne, icrInfB] "rigid" "All" _
    (by simp [filteredResults, icrOne, icrInfB, List.filter]) h
  have hfin : finiteRelErrors (filteredResults [icrOne, icrInfB] "rigid" "All") ≠ [] := by
    simp [finiteRelErrors, filteredResults, icrOne, icrInfB, List.filter, List.filterMap]
  obtain ⟨hmean, hstd⟩ := hr.2.1 hfin
  exact ⟨_, h, hmean, hstd, hr.2.2⟩

/-- C6: whenever `generate_verification_summary` returns, the summary counts
satisfy `passing + failing = total = length of the input`, the overall pass
rate is 0 on empty input and `100 * passing / total` otherwise. -/
theorem generate_verification_summary_invariants (cfg : Config)
    (rs : List IndividualComparisonResult) (s : VerificationSummary)
    (h : generate_verification_summary cfg rs = Except.ok s) :
    s.passing_tests + s.failing_tests = s.total_tests ∧
    s.total_tests = rs.length ∧
    (rs = [] → s.overall_pass_rate = 0) ∧
    (rs ≠ [] → s.overall_pass_rate = 100 * (s.passing_tests : ℚ) / (s.total_tests : ℚ)) := by
  cases hcg : collectGroups cfg rs
      ((List.map (fun m => List.map (fun d => (m, d)) ["Normal", "Inverse", "All"])
        (List.dedup (List.map (fun r => r.method) rs))).flatten) with
  | error e =>
    simp only [generate_verification_summary, hcg] at h
    exact Except.noConfusion h
  | ok gs =>
    simp only [generate_verification_summary, hcg, Except.ok.injEq] at h
    subst h
    have hle : (rs.filter fun r => r.passes_tolerance).length ≤ rs.length :=
      List.length_filter_le _ _
    refine ⟨Nat.add_sub_cancel' hle, rfl, fun hnil => by simp [hnil], fun hnnil => ?_⟩
    have hpos : 0 < rs.length := List.length_pos.mpr hnnil
    simp only [hpos, if_pos]
    rw [div_mul_eq_mul_div, mul_comm]

/-- Witness for C6: the empty input collection yields a summary with all
counts zero and a zero overall pass rate. -/
theorem generate_verification_summary_invariants_witness :
    ∃ s, generate_verification_summary cfgEmpty [] = Except.ok s ∧
      s.passing_tests + s.failing_tests = s.total_tests ∧
      s.total_tests = 0 ∧ s.overall_pass_rate = 0 := by
  have h : generate_verification_summary cfgEmpty [] =
      Except.ok ⟨0, 0, 0, 0, [], [], []⟩ := rfl
  have hr := generate_verification_summary_invariants cfgEmpty [] _ h
  exact ⟨_, h, hr.1, hr.2.1, hr.2.2.1 rfl⟩

theorem compare_individual_test_fields (cfg : Config) (tid m d : String) (lv pv : ℚ)
    (res : IndividualComparisonResult)
    (h : compare_individual_test cfg tid m d lv pv = Except.ok res) :
    res.test_id = tid ∧ res.method = m ∧ res.direction = d ∧
    res.legacy_value = lv ∧ res.pyslammer_value = pv := by
  cases hg : get_tolerance cfg m (some lv) with
  | error e =>
    simp only [compare_individual_test, hg] at h
    exact Except.noConfusion h
  | ok tol =>
    simp only [compare_individual_test, hg, Except.ok.injEq] at h
    subst h
    exact ⟨rfl, rfl, rfl, rfl, rfl⟩

/-- C10: in the group filter, direction matching is case-insensitive string
equality while method matching is case-sensitive exact equality: filtering
with direction `"Normal"` selects results whose stored direction is the
lower-case `"normal"` (the form `compare_analysis_record` produces, while
`generate_verification_summary` invokes the filter with capitalized
direction names), but filtering with method `"Rigid"` selects no result
whose method field is `"rigid"`. -/
theorem direction_case_insensitive_method_case_sensitive :
    (∀ (rs : List IndividualComparisonResult) (m : String)
      (r : IndividualComparisonResult),
      r ∈ rs → r.method = m → r.direction = "normal" →
      r ∈ filteredResults rs m "Normal") ∧
    (∀ (rs : List IndividualComparisonResult) (r : IndividualComparisonResult),
      r.method = "rigid" → r ∉ filteredResults rs "Rigid" "Normal") ∧
    (∀ (cfg : Config) (ar : AnalysisRecord) (py : Results)
      (l : List IndividualComparisonResult),
      compare_analysis_record cfg ar py = Except.ok l →
      l.map (fun r => r.direction) = ["normal", "inverse"]) := by
  refine ⟨?_, ?_, ?_⟩
  · intro rs m r hmem hm hd
    refine List.mem_filter.mpr ⟨hmem, ?_⟩
    simp only [hm, hd]
    simp only [beq_self_eq_true, Bool.true_and]
    have : pyLower "normal" = pyLower "Normal" := by decide
    simp [this]
  · intro rs r hm hmem
    have hp := (List.mem_filter.mp hmem).2
    simp [hm] at hp
  · intro cfg ar py l h
    cases hn : compare_individual_test cfg (ar.analysis_id ++ "_normal")
        ar.analysis.method "normal" ar.results.normal_displacement_cm
        py.normal_displacement_cm with
    | error e =>
      simp only [compare_analysis_record, hn] at h
      exact Except.noConfusion h
    | ok nres =>
      cases hi : compare_individual_test cfg (ar.analysis_id ++ "_inverse")
          ar.analysis.method "inverse" ar.results.inverse_displacement_cm
          py.inverse_displacement_cm with
      | error e =>
        simp only [compare_analysis_record, hn, hi] at h
        exact Except.noConfusion h
      | ok ires =>
        simp only [compare_analysis_record, hn, hi, Except.ok.injEq] at h
        subst h
        have h1 := (compare_individual_test_fields _ _ _ _ _ _ _ hn).2.2.1
        have h2 := (compare_individual_test_fields _ _ _ _ _ _ _ hi).2.2.1
        simp [h1, h2]

/-- A reference analysis record for the C10 witness: method `rigid`,
reference displacements 1 cm (normal) and 2 cm (inverse). -/
def arOne : AnalysisRecord :=
  ⟨"a1", ⟨"Loma Prieta", "Corralitos", 1 / 2, "lp.txt", none⟩, ⟨"rigid", none⟩,
    ⟨1 / 10, none, none, none, none, none⟩, ⟨1, 2, none, none, none⟩⟩

/-- Candidate results agreeing exactly with `arOne`. -/
def pyOne : Results := ⟨1, 2, none, none, none⟩

/-- The two comparison results `compare_analysis_record cfgBasic arOne pyOne`
produces. -/
def arOneResults : List IndividualComparisonResult :=
  [⟨"a1_normal", "rigid", "normal", 0, .fin 0, .fin 0, true, ⟨.fin (1 / 10), 1 / 2⟩, 1, 1, "cm"⟩,
   ⟨"a1_inverse", "rigid", "inverse", 0, .fin 0, .fin 0, true, ⟨.fin (1 / 10), 1 / 2⟩, 2, 2, "cm"⟩]

/-- Witness for C10: `icrOne` (method `rigid`, direction `normal`) is
selected by the filter for `("rigid", "Normal")` but not by the filter for
`("Rigid", "Normal")`, and a concrete `compare_analysis_record` call emits
the lower-case direction pair. -/
theorem direction_case_insensitive_method_case_sensitive_witness :
    icrOne ∈ filteredResults [icrOne] "rigid" "Normal" ∧
    icrOne ∉ filteredResults [icrOne] "Rigid" "Normal" ∧
    arOneResults.map (fun r => r.direction) = ["normal", "inverse"] := by
  have hcar : compare_analysis_record cfgBasic arOne pyOne = Except.ok arOneResults := by
    norm_num [compare_analysis_record, compare_individual_test, get_tolerance,
      arOne, pyOne, arOneResults, cfgBasic, tolBasic, smallDisplacementThreshold,
      Config.valueDependentD, Config.tolerancesD, PyFloat.le]
    exact ⟨rfl, rfl⟩
  exact ⟨direction_case_insensitive_method_case_sensitive.1 [icrOne] "rigid" icrOne
      (by simp) rfl rfl,
    direction_case_insensitive_method_case_sensitive.2.1 [icrOne] icrOne rfl,
    direction_case_insensitive_method_case_sensitive.2.2 cfgBasic arOne pyOne
      arOneResults hcar⟩

/-- C9: in the per-method summaries of `generate_verification_summary`, the
`0` default for `mean_relative_error` fires only when a method has no
comparison results at all; on a concrete input where the method `rigid` has
one comparison result whose relative error is infinite, the per-method
`mean_relative_error` is `np.mean` of an empty list — float NaN, modelled
`none` — and not `0`, unlike `analyze_group`, which returns `0` for the same
group.  (`icrInf` is exactly the result `compare_individual_test` produces
for reference 0 and candidate 5.) -/
theorem method_summary_infinite_relative_error_nan :
    compare_individual_test cfgBasic "t3" "rigid" "normal" 0 5 = Except.ok icrInf ∧
    (∃ s, generate_verification_summary cfgBasic [icrInf] = Except.ok s ∧
      s.method_summaries.lookup "rigid" = some ⟨1, 0, 0, some 5, none⟩) ∧
    (∃ g, analyze_group cfgBasic [icrInf] "rigid" "All" = Except.ok g ∧
      g.mean_relative_error = 0) := by
  have e1 : (pyLower "normal" == pyLower "Normal") = true := by decide
  have e2 : (pyLower "normal" == pyLower "Inverse") = false := by decide
  have hgA : analyze_group cfgBasic [icrInf] "rigid" "All" =
      Except.ok ⟨"rigid", "All", 1, 0, none, none, 0, false, 0, 0, 5⟩ := by
    norm_num [analyze_group, filteredResults, icrInf, linregress, npMean, npVariance,
      pythonMax, pythonMin, finiteRelErrors, inBandOpt, percentPassingThreshold,
      slopeMinThreshold, slopeMaxThreshold, interceptMinThreshold,
      interceptMaxThreshold, rSquaredMinThreshold, Config.tolerancesD,
      Config.valueDependentD, cfgBasic, tolBasic, List.filter, List.filterMap]
  refine ⟨?_, ?_, ⟨_, hgA, rfl⟩⟩
  · norm_num [compare_individual_test, get_tolerance, icrInf, cfgBasic, tolBasic,
      smallDisplacementThreshold, Config.valueDependentD, Config.tolerancesD]
  · have hgN : analyze_group cfgBasic [icrInf] "rigid" "Normal" =
        Except.ok ⟨"rigid", "Normal", 1, 0, none, none, 0, false, 0, 0, 5⟩ := by
      norm_num [analyze_group, filteredResults, icrInf, linregress, npMean, npVariance,
        pythonMax, pythonMin, finiteRelErrors, inBandOpt, percentPassingThreshold,
        slopeMinThreshold, slopeMaxThreshold, interceptMinThreshold,
        interceptMaxThreshold, rSquaredMinThreshold, Config.tolerancesD,
        Config.valueDependentD, cfgBasic, tolBasic, e1, List.filter, List.filterMap]
    have hfI : filteredResults [icrInf] "rigid" "Inverse" = [] := by
      simp [filteredResults, icrInf, List.filter, e2]
    have hgI : analyze_group cfgBasic [icrInf] "rigid" "Inverse" =
        Except.ok ⟨"rigid", "Inverse", 0, 0, some 0, some 0, 0, false, 0, 0, 0⟩ := by
      simp [analyze_group, hfI]
    refine ⟨⟨1, 0, 1, 0, [icrInf],
      [⟨"rigid", "Normal", 1, 0, none, none, 0, false, 0, 0, 5⟩,
       ⟨"rigid", "All", 1, 0, none, none, 0, false, 0, 0, 5⟩],
      [("rigid", ⟨1, 0, 0, some 5, none⟩)]⟩, ?_, ?_⟩
    · simp only [icrInf] at hgA hgN hgI
      simp only [generate_verification_summary, icrInf, collectGroups, List.map,
        List.dedup_nil, List.dedup_cons_of_not_mem, List.not_mem_nil, not_false_eq_true,
        List.flatten, List.append_nil, hgA, hgN, hgI]
      norm_num [methodSummaryFor, icrInf, finiteRelErrors, npMeanOpt, npMean,
        List.filter, List.filterMap]
    · simp [List.lookup]

end PySlammer
